import Mathlib

/-!
Shallow embedding of the x-weibo-auto-translator pipeline.

The development models, directly from the Python source:
  * `tweet_to_weibo.py` — the processed-ids ledger (`load_processed_tweets`,
    `save_processed_tweet`), the cache validity check (`is_valid_cache`),
    the translator (`translate_with_free_api`, `translate_text_with_openai`),
    the publisher (`post_to_weibo`) and the per-cycle orchestrator
    (`process_tweets`);
  * `x_scraper.py` — the mirror-iterating scrape fetch
    (`scrape_tweets_from_nitter`, `scrape_tweets_directly`);
  * `run_x_service.py` — the API/scrape mode controller (`run_scraper`).

External effects (HTTP responses, subprocess results, file contents) are
passed in as explicit oracle arguments, so every function is a total,
executable Lean definition whose control flow mirrors the Python line by
line.  Side effects that matter to the claims (publish calls, ledger
writes, repost skips) are reified as event traces.
-/

namespace TweetToWeibo

/-- Media entry attached to a tweet as built by `tweet_to_weibo.py`
(`{'type': ..., 'media_url': ...}`). -/
structure MediaEntry where
  mtype : String
  media_url : String
deriving DecidableEq, Repr

/-- Tweet object as used by `process_tweets`: the dynamically created
objects carry `id` (compared with the ledger through `str(...)`, so a
string here), `full_text`, `created_at` and the media list of
`extended_entities`. -/
structure Tweet where
  id : String
  full_text : String
  created_at : Int
  media : List MediaEntry
deriving DecidableEq, Repr

/-- State of the `processed_tweets.json` file:
`none` = file absent, `some none` = file present but `json.load` raises
`JSONDecodeError`, `some (some ids)` = file parses to a list of ids. -/
def load_processed_tweets (file : Option (Option (List String))) : List String :=
  match file with
  | none => []
  | some none => []
  | some (some ids) => ids

/-- Append a tweet id to the ledger unless it is already present
(`save_processed_tweet` in `tweet_to_weibo.py`). -/
def save_processed_tweet (processed : List String) (tweet_id : String) : List String :=
  if tweet_id ∈ processed then processed else processed ++ [tweet_id]

/-- Validity check of the fetch cache (`is_valid_cache`, identical in
`tweet_to_weibo.py` and `x_scraper.py`).  `cacheFile` is the state of the
cache file: `none` = absent, `some none` = present but reading or parsing
it raises (caught, logged), `some (some t)` = parses with timestamp `t`
(seconds).  `cacheExpiry` is in minutes, as in the source. -/
def is_valid_cache (force : Bool) (cacheFile : Option (Option Int))
    (now : Int) (cacheExpiry : Int) : Bool :=
  if force then false
  else
    match cacheFile with
    | none => false
    | some none => false
    | some (some fetchedAt) =>
      if now - fetchedAt < cacheExpiry * 60 then true else false

/-- Outcome of the single HTTP request made by `translate_with_free_api`:
`ok200` = status 200 and the JSON body parses, carrying the list of
`item[0]` segment strings of `result[0]`; `badStatus` = a non-200 status
code; `exc` = the request or the JSON parsing raises (caught). -/
inductive FreeOutcome
  | ok200 (segments : List String)
  | badStatus (code : Nat)
  | exc
deriving DecidableEq, Repr

/-- Backup translator (`translate_with_free_api`).  On a 200 response it
joins the non-empty segments; on any other status or on an exception it
returns the failure marker built from the first 50 characters of the
input.  Total by construction — every failure path in the source is a
caught branch returning a string. -/
def translate_with_free_api (text : String) (o : FreeOutcome) : String :=
  match o with
  | FreeOutcome.ok200 segments =>
    String.join (segments.filter (fun s => !s.isEmpty))
  | FreeOutcome.badStatus _ => "[翻译失败] " ++ text.take 50 ++ "..."
  | FreeOutcome.exc => "[翻译失败] " ++ text.take 50 ++ "..."

/-- Outcome of the primary OpenAI call in `translate_text_with_openai`
(non-test mode): `ok content` = the call returns and `content` is the
stripped completion text; the other constructors are the three exception
branches (`RateLimitError`, `InsufficientQuotaError`, any other
exception), all caught inside the function. -/
inductive PrimaryOutcome
  | ok (content : String)
  | rateLimit
  | insufficientQuota
  | otherErr
deriving DecidableEq, Repr

/-- Primary translator (`translate_text_with_openai`, non-test mode).  On
success it returns the stripped completion; on every caught failure it
returns the backup translation when `USE_BACKUP_TRANSLATOR` is set and
the empty string otherwise.  The `tenacity` retry wrapper never fires in
the source because the retried exception types are caught inside the
body, so a single outcome per call is faithful. -/
def translate_text_with_openai (useBackup : Bool) (free : FreeOutcome)
    (text : String) (p : PrimaryOutcome) : String :=
  match p with
  | PrimaryOutcome.ok content => content
  | PrimaryOutcome.rateLimit =>
    if useBackup then translate_with_free_api text free else ""
  | PrimaryOutcome.insufficientQuota =>
    if useBackup then translate_with_free_api text free else ""
  | PrimaryOutcome.otherErr =>
    if useBackup then translate_with_free_api text free else ""

/-- Original-tweet link appended to every published post
(`https://twitter.com/{X_USERNAME}/status/{tweet.id}`). -/
def tweetUrl (username id : String) : String :=
  "https://twitter.com/" ++ username ++ "/status/" ++ id

/-- Photo URLs extracted from a tweet before publishing (`media_urls` in
`process_tweets`): the `media_url` of each media entry whose type is
`photo`. -/
def mediaUrls (t : Tweet) : List String :=
  (t.media.filter (fun m => m.mtype == "photo")).map (fun m => m.media_url)

/-- Repost marker test of `process_tweets`
(`tweet_text.startswith('RT @')`): the first four characters equal
`RT @`.  Python compares code points, as does `String.take`, so the two
agree; this form also evaluates in the kernel. -/
def startsWithRT (s : String) : Bool := s.take 4 == "RT @"

/-- Observable side effects of one orchestrator cycle: a publish call to
`post_to_weibo` with its result (`none` = the call raised after its
retries, caught by the per-tweet handler), a ledger write
(`save_processed_tweet`), a repost skip, a translation-failure skip. -/
inductive PEv
  | repostSkip (id : String)
  | saved (id : String)
  | publishAttempt (id : String) (ok : Option Bool)
  | translateFailSkip (id : String)
deriving DecidableEq, Repr

/-- Body of the per-tweet loop of `process_tweets`: skip reposts (text
starting with `RT @`) recording them; otherwise translate, and when the
translation is non-empty publish and record on success.  `publish`
returns `none` when `post_to_weibo` raises (caught by the surrounding
`except`).  Returns the updated ledger and the emitted events. -/
def processOne (translate : String → String)
    (publish : String → List String → Option Bool) (username : String)
    (processed : List String) (t : Tweet) : List String × List PEv :=
  if startsWithRT t.full_text then
    (save_processed_tweet processed t.id, [PEv.repostSkip t.id, PEv.saved t.id])
  else
    let translated := translate t.full_text
    if translated ≠ "" then
      let postText := translated ++ "\n\n原文链接: " ++ tweetUrl username t.id
      match publish postText (mediaUrls t) with
      | some true =>
        (save_processed_tweet processed t.id,
          [PEv.publishAttempt t.id (some true), PEv.saved t.id])
      | some false => (processed, [PEv.publishAttempt t.id (some false)])
      | none => (processed, [PEv.publishAttempt t.id none])
    else (processed, [PEv.translateFailSkip t.id])

/-- Iteration of `processOne` over the new tweets, threading the ledger
and concatenating the event traces (the `for tweet in new_tweets` loop). -/
def processLoop (translate : String → String)
    (publish : String → List String → Option Bool) (username : String) :
    List String → List Tweet → List String × List PEv
  | processed, [] => (processed, [])
  | processed, t :: ts =>
    let r := processOne translate publish username processed t
    let rest := processLoop translate publish username r.1 ts
    (rest.1, r.2 ++ rest.2)

/-- One orchestrator cycle (`process_tweets`): load the ledger, sort the
fetched tweets by `created_at` ascending, keep only those whose id is not
in the ledger, then run the per-tweet loop. -/
def process_tweets (translate : String → String)
    (publish : String → List String → Option Bool) (username : String)
    (processed : List String) (tweets : List Tweet) :
    List String × List PEv :=
  let sorted := tweets.mergeSort (fun a b => decide (a.created_at ≤ b.created_at))
  let newTweets := sorted.filter (fun t => !processed.contains t.id)
  processLoop translate publish username processed newTweets

/-- Repost detection of `process_tweets` (`tweet_text.startswith('RT @')`). -/
def isRepostTweet (t : Tweet) : Bool :=
  startsWithRT t.full_text

/-- Predicate: the per-tweet loop reaches a successful `post_to_weibo`
call for `t` (not a repost, non-empty translation, publish returns
`True`). -/
def publishRecorded (translate : String → String)
    (publish : String → List String → Option Bool) (username : String)
    (t : Tweet) : Bool :=
  if startsWithRT t.full_text then false
  else
    let translated := translate t.full_text
    if translated ≠ "" then
      publish (translated ++ "\n\n原文链接: " ++ tweetUrl username t.id)
        (mediaUrls t) == some true
    else false

/-- Predicate: the per-tweet loop calls `save_processed_tweet` for `t`
(repost skip, or successful publish). -/
def recorded (translate : String → String)
    (publish : String → List String → Option Bool) (username : String)
    (t : Tweet) : Bool :=
  isRepostTweet t || publishRecorded translate publish username t

/-- Events emitted for one tweet; they do not depend on the ledger. -/
def itemEvents (translate : String → String)
    (publish : String → List String → Option Bool) (username : String)
    (t : Tweet) : List PEv :=
  (processOne translate publish username [] t).2

/-- Event filter: a publish attempt for id `s` (any outcome). -/
def isPublishFor (s : String) : PEv → Bool
  | PEv.publishAttempt i _ => i == s
  | _ => false

/-- Event filter: a successful publish for id `s`. -/
def isSuccessPublishFor (s : String) : PEv → Bool
  | PEv.publishAttempt i ok => i == s && ok == some true
  | _ => false

/-- Event filter: a repost skip for id `s`. -/
def isRepostSkipFor (s : String) : PEv → Bool
  | PEv.repostSkip i => i == s
  | _ => false

theorem mem_save_processed_tweet (P : List String) (i s : String) :
    s ∈ save_processed_tweet P i ↔ s ∈ P ∨ s = i := by
  unfold save_processed_tweet
  by_cases h : i ∈ P
  · simp only [if_pos h]
    constructor
    · exact fun hs => Or.inl hs
    · rintro (hs | rfl)
      · exact hs
      · exact h
  · simp [if_neg h]

theorem processOne_fst (tr : String → String)
    (pub : String → List String → Option Bool) (u : String)
    (P : List String) (t : Tweet) :
    (processOne tr pub u P t).1 =
      if recorded tr pub u t = true then save_processed_tweet P t.id else P := by
  unfold processOne recorded publishRecorded isRepostTweet
  by_cases h1 : startsWithRT t.full_text
  · simp [h1]
  · simp only [h1, Bool.false_or, if_neg]
    by_cases h2 : tr t.full_text = ""
    · simp [h2]
    · simp only [h2, ne_eq, not_false_eq_true, if_true, Bool.if_false_left]
      cases hp : pub (tr t.full_text ++ "\n\n原文链接: " ++ tweetUrl u t.id) (mediaUrls t) with
      | none => simp [hp, h2]
      | some b => cases b <;> simp [hp, h2]

theorem processOne_snd (tr : String → String)
    (pub : String → List String → Option Bool) (u : String)
    (P : List String) (t : Tweet) :
    (processOne tr pub u P t).2 = itemEvents tr pub u t := by
  unfold itemEvents processOne
  by_cases h1 : startsWithRT t.full_text
  · simp [h1]
  · simp only [h1, if_neg]
    by_cases h2 : tr t.full_text = ""
    · simp [h2]
    · simp only [h2, ne_eq, not_false_eq_true, if_true]
      cases hp : pub (tr t.full_text ++ "\n\n原文链接: " ++ tweetUrl u t.id) (mediaUrls t) with
      | none => simp [hp]
      | some b => cases b <;> simp [hp]

theorem processLoop_cons_fst (tr : String → String)
    (pub : String → List String → Option Bool) (u : String)
    (P : List String) (t : Tweet) (ts : List Tweet) :
    (processLoop tr pub u P (t :: ts)).1 =
      (processLoop tr pub u (processOne tr pub u P t).1 ts).1 := by
  simp [processLoop]

theorem processLoop_cons_snd (tr : String → String)
    (pub : String → List String → Option Bool) (u : String)
    (P : List String) (t : Tweet) (ts : List Tweet) :
    (processLoop tr pub u P (t :: ts)).2 =
      (processOne tr pub u P t).2 ++
        (processLoop tr pub u (processOne tr pub u P t).1 ts).2 := by
  simp [processLoop]

theorem mem_processLoop_fst (tr : String → String)
    (pub : String → List String → Option Bool) (u : String)
    (s : String) :
    ∀ (ts : List Tweet) (P : List String),
      (s ∈ (processLoop tr pub u P ts).1 ↔
        s ∈ P ∨ ∃ t, t ∈ ts ∧ t.id = s ∧ recorded tr pub u t = true) := by
  intro ts
  induction ts with
  | nil => intro P; simp [processLoop]
  | cons t ts ih =>
    intro P
    rw [processLoop_cons_fst, ih, processOne_fst]
    by_cases hr : recorded tr pub u t = true
    · simp only [if_pos hr, mem_save_processed_tweet]
      constructor
      · rintro ((hs | rfl) | ⟨w, hw, rfl, hwr⟩)
        · exact Or.inl hs
        · exact Or.inr ⟨t, List.mem_cons_self t ts, rfl, hr⟩
        · exact Or.inr ⟨w, List.mem_cons_of_mem t hw, rfl, hwr⟩
      · rintro (hs | ⟨w, hw, rfl, hwr⟩)
        · exact Or.inl (Or.inl hs)
        · rcases List.mem_cons.mp hw with rfl | hw2
          · exact Or.inl (Or.inr rfl)
          · exact Or.inr ⟨w, hw2, rfl, hwr⟩
    · simp only [if_neg hr]
      constructor
      · rintro (hs | ⟨w, hw, rfl, hwr⟩)
        · exact Or.inl hs
        · exact Or.inr ⟨w, List.mem_cons_of_mem t hw, rfl, hwr⟩
      · rintro (hs | ⟨w, hw, rfl, hwr⟩)
        · exact Or.inl hs
        · rcases List.mem_cons.mp hw with rfl | hw2
          · exact absurd hwr hr
          · exact Or.inr ⟨w, hw2, rfl, hwr⟩

theorem processLoop_snd_countP (tr : String → String)
    (pub : String → List String → Option Bool) (u : String)
    (p : PEv → Bool) :
    ∀ (ts : List Tweet) (P : List String),
      ((processLoop tr pub u P ts).2.countP p) =
        (ts.map (fun t => (itemEvents tr pub u t).countP p)).sum := by
  intro ts
  induction ts with
  | nil => intro P; simp [processLoop]
  | cons t ts ih =>
    intro P
    rw [processLoop_cons_snd, List.countP_append, ih, processOne_snd]
    simp

theorem processLoop_snd_any (tr : String → String)
    (pub : String → List String → Option Bool) (u : String)
    (p : PEv → Bool) :
    ∀ (ts : List Tweet) (P : List String),
      ((processLoop tr pub u P ts).2.any p) =
        (ts.any (fun t => (itemEvents tr pub u t).any p)) := by
  intro ts
  induction ts with
  | nil => intro P; simp [processLoop]
  | cons t ts ih =>
    intro P
    rw [processLoop_cons_snd, List.any_append, ih, processOne_snd]
    simp

theorem itemEvents_countP_publish_le (tr : String → String)
    (pub : String → List String → Option Bool) (u : String)
    (t : Tweet) (s : String) :
    ((itemEvents tr pub u t).countP (isPublishFor s)) ≤
      (if t.id == s then 1 else 0) := by
  unfold itemEvents processOne
  by_cases h1 : startsWithRT t.full_text
  · simp [h1, List.countP_cons, isPublishFor]
  · simp only [h1, if_neg]
    by_cases h2 : tr t.full_text = ""
    · simp [h2, List.countP_cons, isPublishFor]
    · simp only [h2, ne_eq, not_false_eq_true, if_true]
      cases hp : pub (tr t.full_text ++ "\n\n原文链接: " ++ tweetUrl u t.id) (mediaUrls t) with
      | none =>
        by_cases h3 : t.id == s <;>
          simp [hp, List.countP_cons, isPublishFor, h3]
      | some b =>
        cases b <;> by_cases h3 : t.id == s <;>
          simp [hp, List.countP_cons, isPublishFor, h3]

theorem itemEvents_any_success (tr : String → String)
    (pub : String → List String → Option Bool) (u : String)
    (t : Tweet) (s : String) :
    ((itemEvents tr pub u t).any (isSuccessPublishFor s)) =
      (t.id == s && publishRecorded tr pub u t) := by
  unfold itemEvents processOne publishRecorded
  by_cases h1 : startsWithRT t.full_text
  · simp [h1, isSuccessPublishFor]
  · simp only [h1, if_neg, Bool.false_eq_true, if_false]
    by_cases h2 : tr t.full_text = ""
    · simp [h2, isSuccessPublishFor]
    · simp only [h2, ne_eq, not_false_eq_true, if_true]
      cases hp : pub (tr t.full_text ++ "\n\n原文链接: " ++ tweetUrl u t.id) (mediaUrls t) with
      | none => simp [hp, isSuccessPublishFor]
      | some b => cases b <;> simp [hp, isSuccessPublishFor]

theorem itemEvents_any_repost (tr : String → String)
    (pub : String → List String → Option Bool) (u : String)
    (t : Tweet) (s : String) :
    ((itemEvents tr pub u t).any (isRepostSkipFor s)) =
      (t.id == s && isRepostTweet t) := by
  unfold itemEvents processOne isRepostTweet
  by_cases h1 : startsWithRT t.full_text
  · simp [h1, isRepostSkipFor]
  · simp only [h1, if_neg, Bool.and_false]
    by_cases h2 : tr t.full_text = ""
    · simp [h2, isRepostSkipFor]
    · simp only [h2, ne_eq, not_false_eq_true, if_true]
      cases hp : pub (tr t.full_text ++ "\n\n原文链接: " ++ tweetUrl u t.id) (mediaUrls t) with
      | none => simp [hp, isRepostSkipFor]
      | some b => cases b <;> simp [hp, isRepostSkipFor]

theorem processLoop_countP_publish_le (tr : String → String)
    (pub : String → List String → Option Bool) (u : String) (s : String) :
    ∀ (ts : List Tweet) (P : List String),
      ((processLoop tr pub u P ts).2.countP (isPublishFor s)) ≤
        ts.countP (fun t => t.id == s) := by
  intro ts
  induction ts with
  | nil => intro P; simp [processLoop]
  | cons t ts ih =>
    intro P
    rw [processLoop_cons_snd, List.countP_append, processOne_snd, List.countP_cons]
    have h1 := itemEvents_countP_publish_le tr pub u t s
    have h2 := ih (processOne tr pub u P t).1
    by_cases h3 : (t.id == s) = true
    · simp only [h3, if_true] at h1 ⊢
      omega
    · simp only [h3, if_false, Bool.false_eq_true] at h1 ⊢
      omega

theorem process_tweets_eq (tr : String → String)
    (pub : String → List String → Option Bool) (u : String)
    (P : List String) (tweets : List Tweet) :
    process_tweets tr pub u P tweets =
      processLoop tr pub u P
        ((tweets.mergeSort (fun a b => decide (a.created_at ≤ b.created_at))).filter
          (fun t => !P.contains t.id)) := rfl

end TweetToWeibo

namespace TweetToWeibo

/-- C2: cache validity is a pure function of (now, fetched_at, expiry window,
force flag): `is_valid_cache` returns true iff the force flag is unset, the
cache file exists and parses, and `now - fetched_at` is strictly below the
expiry window; a missing or malformed cache file yields `false` (the
embedding is a total function, so no exception escapes). -/
theorem is_valid_cache_iff (force : Bool) (cacheFile : Option (Option Int))
    (now : Int) (cacheExpiry : Int) :
    is_valid_cache force cacheFile now cacheExpiry = true ↔
      (force = false ∧ ∃ t : Int, cacheFile = some (some t) ∧
        now - t < cacheExpiry * 60) := by
  cases force with
  | true => simp [is_valid_cache]
  | false =>
    cases cacheFile with
    | none => simp [is_valid_cache]
    | some inner =>
      cases inner with
      | none => simp [is_valid_cache]
      | some t =>
        by_cases h : now - t < cacheExpiry * 60
        · simp [is_valid_cache, h]
        · simp [is_valid_cache, h]

end TweetToWeibo

namespace TweetToWeibo

/-- C1: in one cycle of `process_tweets`, publish is attempted at most once
per fetched item — the number of publish attempts carrying an id never
exceeds the number of fetched items with that id, so each item gets at
most one attempt even when the fetched sequence repeats ids — and, when
the fetched ids are distinct, for every fetched item whose id is not yet
in the ledger, `str(i.id)` ends up in the ledger iff the cycle performed
a successful publish for it or detected it as a repost (text starting
with `RT @`), the latter recorded without translation or publish. -/
theorem process_tweets_publish_once_and_ledger_iff
    (translate : String → String) (publish : String → List String → Option Bool)
    (username : String) (processed : List String) (tweets : List Tweet) :
    (∀ s : String,
      ((process_tweets translate publish username processed tweets).2.countP
          (isPublishFor s)) ≤ (tweets.map Tweet.id).count s)
    ∧ ((tweets.map Tweet.id).Nodup →
       ∀ t ∈ tweets, t.id ∉ processed →
        (t.id ∈ (process_tweets translate publish username processed tweets).1 ↔
          ((process_tweets translate publish username processed tweets).2.any
              (isSuccessPublishFor t.id) = true ∨
           (process_tweets translate publish username processed tweets).2.any
              (isRepostSkipFor t.id) = true))) := by
  have hperm : List.Perm
      (tweets.mergeSort (fun a b => decide (a.created_at ≤ b.created_at))) tweets :=
    List.mergeSort_perm tweets _
  constructor
  · intro s
    rw [process_tweets_eq]
    refine le_trans (processLoop_countP_publish_le translate publish username s _ processed) ?_
    rw [List.count_eq_countP, List.countP_map]
    refine le_trans (List.Sublist.countP_le _ (List.filter_sublist _)) ?_
    rw [hperm.countP_eq]
    apply le_of_eq
    rfl
  · intro hnd t ht htp
    rw [process_tweets_eq, mem_processLoop_fst, processLoop_snd_any, processLoop_snd_any]
    have hnds : ((tweets.mergeSort (fun a b => decide (a.created_at ≤ b.created_at))).map
        Tweet.id).Nodup := (hperm.map Tweet.id).nodup_iff.mpr hnd
    have hts : t ∈ tweets.mergeSort (fun a b => decide (a.created_at ≤ b.created_at)) :=
      List.mem_mergeSort.mpr ht
    have huniq : ∀ w ∈ tweets.mergeSort (fun a b => decide (a.created_at ≤ b.created_at)),
        w.id = t.id → w = t := by
      intro w hw he
      exact List.inj_on_of_nodup_map hnds hw hts he
    have htn : t ∈ (tweets.mergeSort (fun a b => decide (a.created_at ≤ b.created_at))).filter
        (fun w => !processed.contains w.id) := by
      refine List.mem_filter.mpr ⟨hts, ?_⟩
      simp only [Bool.not_eq_true', ← Bool.not_eq_true]
      intro hc
      exact htp (List.elem_iff.mp hc)
    constructor
    · rintro (hin | ⟨w, hw, hwid, hwr⟩)
      · exact absurd hin htp
      · have hw2 : w ∈ tweets.mergeSort (fun a b => decide (a.created_at ≤ b.created_at)) :=
          (List.filter_sublist _).mem hw
        have : w = t := huniq w hw2 hwid
        subst this
        rcases Bool.or_eq_true .. |>.mp hwr with h | h
        · right
          rw [List.any_eq_true]
          refine ⟨w, hw, ?_⟩
          rw [itemEvents_any_repost]
          simp [h]
        · left
          rw [List.any_eq_true]
          refine ⟨w, hw, ?_⟩
          rw [itemEvents_any_success]
          simp [h]
    · rintro (h | h) <;> rw [List.any_eq_true] at h
      · obtain ⟨w, hw, hwp⟩ := h
        rw [itemEvents_any_success] at hwp
        have hw2 := (List.filter_sublist _).mem hw
        obtain ⟨hid, hrec⟩ := Bool.and_eq_true .. |>.mp hwp
        right
        refine ⟨w, hw, by simpa using hid, ?_⟩
        unfold recorded
        simp [hrec]
      · obtain ⟨w, hw, hwp⟩ := h
        rw [itemEvents_any_repost] at hwp
        have hw2 := (List.filter_sublist _).mem hw
        obtain ⟨hid, hrep⟩ := Bool.and_eq_true .. |>.mp hwp
        right
        refine ⟨w, hw, by simpa using hid, ?_⟩
        unfold recorded
        simp [hrep]

end TweetToWeibo

namespace TweetToWeibo

/-- Event filter: any publish attempt, regardless of id or outcome. -/
def isAnyPublish : PEv → Bool
  | PEv.publishAttempt _ _ => true
  | _ => false

/-- C8: running the `process_tweets` cycle twice over an unchanged fetched
item set — where every fetched item either was already in the ledger or
got recorded by the first run (successfully published, or detected as a
repost) — produces zero publish attempts in the second run, because
every fetched id is already in the ledger the second run loads. -/
theorem process_tweets_second_run_no_publish
    (translate : String → String) (publish : String → List String → Option Bool)
    (username : String) (processed : List String) (tweets : List Tweet)
    (h : ∀ t ∈ tweets, t.id ∈ processed ∨ recorded translate publish username t = true) :
    ((process_tweets translate publish username
        (process_tweets translate publish username processed tweets).1 tweets).2.countP
      isAnyPublish) = 0 := by
  have hP1 : ∀ t ∈ tweets,
      t.id ∈ (process_tweets translate publish username processed tweets).1 := by
    intro t ht
    rw [process_tweets_eq, mem_processLoop_fst]
    rcases h t ht with hin | hrec
    · exact Or.inl hin
    · by_cases hin2 : t.id ∈ processed
      · exact Or.inl hin2
      · refine Or.inr ⟨t, ?_, rfl, hrec⟩
        refine List.mem_filter.mpr ⟨List.mem_mergeSort.mpr ht, ?_⟩
        simp only [Bool.not_eq_true']
        rw [← Bool.not_eq_true]
        intro hc
        exact hin2 (List.elem_iff.mp hc)
  conv_lhs => rw [process_tweets_eq]
  have hnil : (tweets.mergeSort (fun a b => decide (a.created_at ≤ b.created_at))).filter
      (fun w => !(process_tweets translate publish username processed tweets).1.contains w.id)
        = [] := by
    rw [List.filter_eq_nil_iff]
    intro w hw
    have hwt : w ∈ tweets := List.mem_mergeSort.mp hw
    have hmem := hP1 w hwt
    simp only [Bool.not_eq_true', Bool.not_eq_false]
    exact List.elem_eq_true_of_mem hmem
  rw [hnil]
  simp [processLoop]

/-- C5: an item whose translation fails is skipped for the current cycle
and left unprocessed — no publish call, its id stays out of the ledger,
and the loop continues with the remaining items instead of aborting; in
particular, with the backup translator disabled a failing primary
translator yields the empty-string failure result that takes exactly this
branch. -/
theorem translate_failure_skips_item
    (free : FreeOutcome) (p : PrimaryOutcome)
    (pub : String → List String → Option Bool) (u : String)
    (P : List String) (t : Tweet) (ts : List Tweet)
    (hp : ∀ s, p ≠ PrimaryOutcome.ok s)
    (hrt : startsWithRT t.full_text = false)
    (hid : t.id ∉ P)
    (hts : ∀ w ∈ ts, w.id ≠ t.id) :
    translate_text_with_openai false free t.full_text p = "" ∧
    (processLoop (fun s => translate_text_with_openai false free s p) pub u P (t :: ts)).1 =
      (processLoop (fun s => translate_text_with_openai false free s p) pub u P ts).1 ∧
    (processLoop (fun s => translate_text_with_openai false free s p) pub u P (t :: ts)).2 =
      PEv.translateFailSkip t.id ::
        (processLoop (fun s => translate_text_with_openai false free s p) pub u P ts).2 ∧
    t.id ∉ (processLoop (fun s => translate_text_with_openai false free s p) pub u P (t :: ts)).1 := by
  have htr : translate_text_with_openai false free t.full_text p = "" := by
    cases p with
    | ok s => exact absurd rfl (hp s)
    | rateLimit => simp [translate_text_with_openai]
    | insufficientQuota => simp [translate_text_with_openai]
    | otherErr => simp [translate_text_with_openai]
  have hpo : processOne (fun s => translate_text_with_openai false free s p) pub u P t =
      (P, [PEv.translateFailSkip t.id]) := by
    unfold processOne
    simp [hrt, htr]
  refine ⟨htr, ?_, ?_, ?_⟩
  · rw [processLoop_cons_fst, hpo]
  · rw [processLoop_cons_snd, hpo]
    simp
  · rw [processLoop_cons_fst, hpo]
    rw [mem_processLoop_fst]
    rintro (hin | ⟨w, hw, hwid, _⟩)
    · exact hid hin
    · exact hts w hw hwid

end TweetToWeibo

namespace TweetToWeibo

/-- C9 counterexample: with the backup translator enabled, a cycle where
the primary call hits the rate limit and the free endpoint answers 200
with an empty segment list (as can happen for empty input text) makes
`translate_text_with_openai` return the empty string — refuting the claim
that it always returns a non-empty string when the backup is enabled. -/
theorem translate_openai_empty_counterexample :
    translate_text_with_openai true (FreeOutcome.ok200 []) "" PrimaryOutcome.rateLimit = "" :=
  rfl

/-- C9 (amended): `translate_with_free_api` is total and on any non-200
response or exception returns the marker `[翻译失败] ` followed by the
first 50 characters of the input and `...`; hence with the backup enabled,
when the primary call fails and the backup also fails,
`translate_text_with_openai` returns that non-empty marker, and the item
is published with the marker text and its id recorded in the ledger. -/
theorem backup_failure_marker_published
    (free : FreeOutcome) (p : PrimaryOutcome)
    (pub : String → List String → Option Bool) (u : String)
    (P : List String) (t : Tweet)
    (hfree : ∀ segments, free ≠ FreeOutcome.ok200 segments)
    (hp : ∀ s, p ≠ PrimaryOutcome.ok s)
    (hrt : startsWithRT t.full_text = false)
    (hpub : pub ("[翻译失败] " ++ t.full_text.take 50 ++ "..." ++ "\n\n原文链接: " ++
        tweetUrl u t.id) (mediaUrls t) = some true) :
    translate_with_free_api t.full_text free =
      "[翻译失败] " ++ t.full_text.take 50 ++ "..." ∧
    translate_text_with_openai true free t.full_text p =
      "[翻译失败] " ++ t.full_text.take 50 ++ "..." ∧
    translate_text_with_openai true free t.full_text p ≠ "" ∧
    processOne (fun s => translate_text_with_openai true free s p) pub u P t =
      (save_processed_tweet P t.id,
        [PEv.publishAttempt t.id (some true), PEv.saved t.id]) := by
  have hmarker : translate_with_free_api t.full_text free =
      "[翻译失败] " ++ t.full_text.take 50 ++ "..." := by
    cases free with
    | ok200 segments => exact absurd rfl (hfree segments)
    | badStatus code => rfl
    | exc => rfl
  have hopenai : translate_text_with_openai true free t.full_text p =
      "[翻译失败] " ++ t.full_text.take 50 ++ "..." := by
    cases p with
    | ok s => exact absurd rfl (hp s)
    | rateLimit => simpa [translate_text_with_openai] using hmarker
    | insufficientQuota => simpa [translate_text_with_openai] using hmarker
    | otherErr => simpa [translate_text_with_openai] using hmarker
  have hne : translate_text_with_openai true free t.full_text p ≠ "" := by
    rw [hopenai]
    intro h
    have hl := congrArg String.length h
    rw [String.length_append, String.length_append] at hl
    simp at hl
    exact absurd hl.2 (by decide)
  refine ⟨hmarker, hopenai, hne, ?_⟩
  have hne2 : ("[翻译失败] " ++ t.full_text.take 50 ++ "..." : String) ≠ "" := by
    rw [← hopenai]
    exact hne
  unfold processOne
  rw [if_neg (by simp [hrt])]
  simp only [hopenai, ne_eq, hne2, not_false_eq_true, if_true, hpub]

end TweetToWeibo

namespace TweetToWeibo

/-- C10: when the ledger file exists but does not parse as JSON,
`load_processed_tweets` returns the empty list, so the deduplication set
is reset for that run and a previously published (non-repost,
translatable) item receives a fresh publish attempt. -/
theorem malformed_ledger_resets_dedup
    (tr : String → String) (pub : String → List String → Option Bool) (u : String)
    (t : Tweet)
    (hrt : startsWithRT t.full_text = false)
    (htr : tr t.full_text ≠ "") :
    load_processed_tweets (some none) = [] ∧
    ((process_tweets tr pub u (load_processed_tweets (some none)) [t]).2.countP
      (isPublishFor t.id)) = 1 := by
  refine ⟨rfl, ?_⟩
  show ((process_tweets tr pub u [] [t]).2.countP (isPublishFor t.id)) = 1
  rw [process_tweets_eq]
  rw [List.mergeSort_singleton]
  have hfil : ([t].filter (fun w => !([] : List String).contains w.id)) = [t] := by simp
  rw [hfil, processLoop_cons_snd]
  have hnil : (processLoop tr pub u (processOne tr pub u [] t).1 []).2 = [] := rfl
  rw [hnil, List.append_nil]
  unfold processOne
  rw [if_neg (by simp [hrt])]
  simp only [ne_eq, htr, not_false_eq_true, if_true]
  cases hpub : pub (tr t.full_text ++ "\n\n原文链接: " ++ tweetUrl u t.id) (mediaUrls t) with
  | none => simp [List.countP_cons, isPublishFor]
  | some b => cases b <;> simp [List.countP_cons, isPublishFor]

end TweetToWeibo

namespace TweetToWeibo

/-- Fixture: item "1" of the spec scenario (fresh, translatable). -/
def exTweet1 : Tweet := { id := "1", full_text := "hello", created_at := 0, media := [] }

/-- Fixture: item "2" of the spec scenario (a repost). -/
def exTweet2 : Tweet := { id := "2", full_text := "RT @x hi", created_at := 1, media := [] }

/-- Fixture: the fetched sequence of the spec scenario. -/
def exTweets : List Tweet := [exTweet1, exTweet2]

/-- Fixture: a translator oracle that always succeeds. -/
def exTranslate : String → String := fun _ => "你好"

/-- Fixture: a publish oracle that always reports success. -/
def exPublish : String → List String → Option Bool := fun _ _ => some true

/-- Witness for C1 at the spec scenario: empty ledger, items "1" and "2". -/
theorem process_tweets_publish_once_and_ledger_iff_witness :
    ((exTweets.map Tweet.id).Nodup ∧ exTweet1 ∈ exTweets ∧
      exTweet1.id ∉ ([] : List String)) ∧
    (∀ s : String,
      ((process_tweets exTranslate exPublish "artist" [] exTweets).2.countP
          (isPublishFor s)) ≤ (exTweets.map Tweet.id).count s) ∧
    (exTweet1.id ∈ (process_tweets exTranslate exPublish "artist" [] exTweets).1 ↔
      ((process_tweets exTranslate exPublish "artist" [] exTweets).2.any
          (isSuccessPublishFor exTweet1.id) = true ∨
       (process_tweets exTranslate exPublish "artist" [] exTweets).2.any
          (isRepostSkipFor exTweet1.id) = true)) :=
  ⟨⟨by decide, by decide, by decide⟩,
   (process_tweets_publish_once_and_ledger_iff exTranslate exPublish "artist" [] exTweets).1,
   (process_tweets_publish_once_and_ledger_iff exTranslate exPublish "artist" [] exTweets).2
     (by decide) exTweet1 (by decide) (by decide)⟩

/-- Witness for C8 at the spec scenario: after a first run that records
both items, the second run performs zero publish attempts. -/
theorem process_tweets_second_run_no_publish_witness :
    (∀ t ∈ exTweets, t.id ∈ ([] : List String) ∨
      recorded exTranslate exPublish "artist" t = true) ∧
    ((process_tweets exTranslate exPublish "artist"
        (process_tweets exTranslate exPublish "artist" [] exTweets).1 exTweets).2.countP
      isAnyPublish) = 0 :=
  ⟨by decide,
   process_tweets_second_run_no_publish exTranslate exPublish "artist" [] exTweets (by decide)⟩

/-- Witness for C5: primary rate-limited, backup disabled, item "1" is
skipped while item "2" is still processed. -/
theorem translate_failure_skips_item_witness :
    ((∀ s, PrimaryOutcome.rateLimit ≠ PrimaryOutcome.ok s) ∧
     startsWithRT exTweet1.full_text = false ∧
     exTweet1.id ∉ ([] : List String) ∧
     (∀ w ∈ [exTweet2], w.id ≠ exTweet1.id)) ∧
    (translate_text_with_openai false FreeOutcome.exc exTweet1.full_text
        PrimaryOutcome.rateLimit = "" ∧
     (processLoop (fun s => translate_text_with_openai false FreeOutcome.exc s
        PrimaryOutcome.rateLimit) exPublish "artist" [] (exTweet1 :: [exTweet2])).1 =
       (processLoop (fun s => translate_text_with_openai false FreeOutcome.exc s
          PrimaryOutcome.rateLimit) exPublish "artist" [] [exTweet2]).1 ∧
     (processLoop (fun s => translate_text_with_openai false FreeOutcome.exc s
        PrimaryOutcome.rateLimit) exPublish "artist" [] (exTweet1 :: [exTweet2])).2 =
       PEv.translateFailSkip exTweet1.id ::
         (processLoop (fun s => translate_text_with_openai false FreeOutcome.exc s
            PrimaryOutcome.rateLimit) exPublish "artist" [] [exTweet2]).2 ∧
     exTweet1.id ∉ (processLoop (fun s => translate_text_with_openai false FreeOutcome.exc s
        PrimaryOutcome.rateLimit) exPublish "artist" [] (exTweet1 :: [exTweet2])).1) :=
  ⟨⟨fun _ h => PrimaryOutcome.noConfusion h, by decide, by decide, by decide⟩,
   translate_failure_skips_item FreeOutcome.exc PrimaryOutcome.rateLimit exPublish "artist"
     [] exTweet1 [exTweet2] (fun _ h => PrimaryOutcome.noConfusion h) (by decide) (by decide)
     (by decide)⟩

/-- Witness for C9 (amended) with a raising backup endpoint and a
rate-limited primary: the marker is returned, non-empty, published and
recorded. -/
theorem backup_failure_marker_published_witness :
    ((∀ segments, FreeOutcome.exc ≠ FreeOutcome.ok200 segments) ∧
     (∀ s, PrimaryOutcome.rateLimit ≠ PrimaryOutcome.ok s) ∧
     startsWithRT exTweet1.full_text = false ∧
     exPublish ("[翻译失败] " ++ exTweet1.full_text.take 50 ++ "..." ++ "\n\n原文链接: " ++
       tweetUrl "artist" exTweet1.id) (mediaUrls exTweet1) = some true) ∧
    (translate_with_free_api exTweet1.full_text FreeOutcome.exc =
      "[翻译失败] " ++ exTweet1.full_text.take 50 ++ "..." ∧
     translate_text_with_openai true FreeOutcome.exc exTweet1.full_text
        PrimaryOutcome.rateLimit =
      "[翻译失败] " ++ exTweet1.full_text.take 50 ++ "..." ∧
     translate_text_with_openai true FreeOutcome.exc exTweet1.full_text
        PrimaryOutcome.rateLimit ≠ "" ∧
     processOne (fun s => translate_text_with_openai true FreeOutcome.exc s
        PrimaryOutcome.rateLimit) exPublish "artist" [] exTweet1 =
       (save_processed_tweet [] exTweet1.id,
         [PEv.publishAttempt exTweet1.id (some true), PEv.saved exTweet1.id])) :=
  ⟨⟨fun _ h => FreeOutcome.noConfusion h, fun _ h => PrimaryOutcome.noConfusion h,
    by decide, rfl⟩,
   backup_failure_marker_published FreeOutcome.exc PrimaryOutcome.rateLimit exPublish "artist"
     [] exTweet1 (fun _ h => FreeOutcome.noConfusion h)
     (fun _ h => PrimaryOutcome.noConfusion h) (by decide) rfl⟩

/-- Witness for C10: item "1", previously published, is republished after
the ledger file is found malformed. -/
theorem malformed_ledger_resets_dedup_witness :
    (startsWithRT exTweet1.full_text = false ∧ exTranslate exTweet1.full_text ≠ "") ∧
    (load_processed_tweets (some none) = [] ∧
     ((process_tweets exTranslate exPublish "artist" (load_processed_tweets (some none))
        [exTweet1]).2.countP (isPublishFor exTweet1.id)) = 1) :=
  ⟨⟨by decide, by decide⟩,
   malformed_ledger_resets_dedup exTranslate exPublish "artist" exTweet1 (by decide) (by decide)⟩

end TweetToWeibo

namespace TweetToWeibo

/-- Network outcome for one media URL inside `post_to_weibo`:
`downloadFail` = the GET returns a non-200 status (logged, skipped);
`uploadNoId` = the upload response lacks a `pic_id` (silently skipped);
`uploadOk` = the upload response carries `pic_id`; `raised` = any
exception while handling this URL (caught by the per-image handler). -/
inductive ImgOutcome
  | downloadFail
  | uploadNoId
  | uploadOk (picId : String)
  | raised
deriving DecidableEq, Repr

/-- Observable per-image effects of `post_to_weibo`: a download attempt
for a URL, and a successful upload yielding a pic id. -/
inductive WEv
  | downloadAttempt (url : String)
  | uploaded (url : String) (picId : String)
deriving DecidableEq, Repr

/-- The final Weibo API call issued by `post_to_weibo`:
`statuses/upload` with the comma-joined pic ids when at least one image
survived, `statuses/update` (text only) otherwise. -/
inductive WeiboCall
  | uploadPost (status : String) (picIds : String)
  | updatePost (status : String)
deriving DecidableEq, Repr

/-- The `for i, url in enumerate(media_urls[:9])` loop of
`post_to_weibo`: every listed URL gets a download attempt; only outcomes
carrying a `pic_id` contribute to the collected ids; every failure is
caught and the loop continues. -/
def uploadImages (img : String → ImgOutcome) : List String → List String × List WEv
  | [] => ([], [])
  | url :: rest =>
    let r := uploadImages img rest
    match img url with
    | ImgOutcome.uploadOk picId =>
      (picId :: r.1, WEv.downloadAttempt url :: WEv.uploaded url picId :: r.2)
    | _ => (r.1, WEv.downloadAttempt url :: r.2)

/-- Publisher (`post_to_weibo`, non-test mode): at most the first nine
media URLs are handled; the surviving pic ids are joined with `,` into a
`statuses/upload` call, or a text-only `statuses/update` call when none
survived; the returned flag is whether the post response carries an
`id`. -/
def post_to_weibo (text : String) (mediaUrls : List String)
    (img : String → ImgOutcome) (postHasId : Bool) :
    List WEv × WeiboCall × Bool :=
  let r := uploadImages img (mediaUrls.take 9)
  let call :=
    if r.1.isEmpty then WeiboCall.updatePost text
    else WeiboCall.uploadPost text (String.intercalate "," r.1)
  (r.2, call, postHasId)

theorem uploadImages_characterization (img : String → ImgOutcome) :
    ∀ urls : List String,
      (uploadImages img urls).1 =
        urls.filterMap (fun u => match img u with
          | ImgOutcome.uploadOk p => some p
          | _ => none) ∧
      (uploadImages img urls).2.filterMap (fun e => match e with
          | WEv.downloadAttempt u => some u
          | _ => none) = urls := by
  intro urls
  induction urls with
  | nil => exact ⟨rfl, rfl⟩
  | cons url rest ih =>
    cases himg : img url with
    | uploadOk p =>
      refine ⟨?_, ?_⟩
      · show (uploadImages img (url :: rest)).1 = _
        unfold uploadImages
        rw [himg]
        simp only [List.filterMap_cons, himg]
        rw [ih.1]
      · show (uploadImages img (url :: rest)).2.filterMap _ = _
        unfold uploadImages
        rw [himg]
        simp only [List.filterMap_cons]
        rw [ih.2]
    | downloadFail =>
      refine ⟨?_, ?_⟩
      · show (uploadImages img (url :: rest)).1 = _
        unfold uploadImages
        rw [himg]
        simp only [List.filterMap_cons, himg]
        rw [ih.1]
      · show (uploadImages img (url :: rest)).2.filterMap _ = _
        unfold uploadImages
        rw [himg]
        simp only [List.filterMap_cons]
        rw [ih.2]
    | uploadNoId =>
      refine ⟨?_, ?_⟩
      · show (uploadImages img (url :: rest)).1 = _
        unfold uploadImages
        rw [himg]
        simp only [List.filterMap_cons, himg]
        rw [ih.1]
      · show (uploadImages img (url :: rest)).2.filterMap _ = _
        unfold uploadImages
        rw [himg]
        simp only [List.filterMap_cons]
        rw [ih.2]
    | raised =>
      refine ⟨?_, ?_⟩
      · show (uploadImages img (url :: rest)).1 = _
        unfold uploadImages
        rw [himg]
        simp only [List.filterMap_cons, himg]
        rw [ih.1]
      · show (uploadImages img (url :: rest)).2.filterMap _ = _
        unfold uploadImages
        rw [himg]
        simp only [List.filterMap_cons]
        rw [ih.2]

/-- C7: `post_to_weibo` downloads at most the first nine media URLs (the
download-attempt trace is exactly `mediaUrls.take 9`); every per-image
failure — bad download status, missing pic id, or exception — is skipped
while the successes keep their order; and a post call is always issued,
referencing the surviving pic ids joined with commas, or text-only when
none survived, so one bad image never aborts the post. -/
theorem post_to_weibo_media_limit_and_post_always_issued
    (text : String) (mediaUrls : List String) (img : String → ImgOutcome)
    (postHasId : Bool) :
    ((post_to_weibo text mediaUrls img postHasId).1.filterMap (fun e => match e with
        | WEv.downloadAttempt u => some u
        | _ => none) = mediaUrls.take 9) ∧
    ((post_to_weibo text mediaUrls img postHasId).2.1 =
      (if ((mediaUrls.take 9).filterMap (fun u => match img u with
            | ImgOutcome.uploadOk p => some p
            | _ => none)).isEmpty
       then WeiboCall.updatePost text
       else WeiboCall.uploadPost text
         (String.intercalate "," ((mediaUrls.take 9).filterMap (fun u => match img u with
            | ImgOutcome.uploadOk p => some p
            | _ => none))))) ∧
    ((post_to_weibo text mediaUrls img postHasId).2.2 = postHasId) := by
  have h := uploadImages_characterization img (mediaUrls.take 9)
  refine ⟨?_, ?_, rfl⟩
  · show (uploadImages img (mediaUrls.take 9)).2.filterMap _ = _
    exact h.2
  · show (if (uploadImages img (mediaUrls.take 9)).1.isEmpty then _ else _) = _
    rw [h.1]

end TweetToWeibo

namespace XScraper

/-- Media entry produced by `x_scraper.py` (`{'type': 'photo', 'url': ...}`). -/
structure ScrapedMedia where
  mtype : String
  url : String
deriving DecidableEq, Repr

/-- Tweet dictionary produced by `x_scraper.py`. -/
structure ScrapedTweet where
  id : String
  content : String
  created_at : String
  url : String
  media : List ScrapedMedia
deriving DecidableEq, Repr

/-- One `.timeline-item` element of a Nitter page as the parser reads it:
the `.tweet-link` href when present, the retweet marker
(`.retweet-header`), the `.tweet-content` text, the title attribute of
the `.tweet-date` link when present, the `src` of each attachment image,
and whether handling this element raises (caught, element skipped). -/
structure RawEl where
  permalink : Option String
  isRetweet : Bool
  content : String
  timeTitle : Option String
  mediaSrcs : List String
  parseRaises : Bool
deriving DecidableEq, Repr

/-- Last `/`-separated segment of a URL (`tweet_url.split('/')[-1]`). -/
def lastSegment (s : String) : String := (s.splitOn "/").getLastD ""

/-- Parse of one timeline element inside `scrape_tweets_from_nitter`:
skip when it raises, lacks a permalink, or is a retweet; otherwise build
the tweet dictionary (relative image paths are joined onto the
instance). -/
def parseNitterEl (inst username : String) (e : RawEl) : Option ScrapedTweet :=
  if e.parseRaises then none
  else
    match e.permalink with
    | none => none
    | some href =>
      let tweet_id := lastSegment href
      if e.isRetweet then none
      else some {
        id := tweet_id
        content := e.content
        created_at := e.timeTitle.getD ""
        url := "https://twitter.com/" ++ username ++ "/status/" ++ tweet_id
        media := e.mediaSrcs.map (fun src =>
          { mtype := "photo"
            url := if src.take 1 == "/" then inst ++ src else src }) }

/-- Per-instance parse loop of `scrape_tweets_from_nitter`
(`for i, tweet_el in enumerate(tweet_elements): if i >= max_count:
break`): the first `maxCount` elements, each parsed or skipped. -/
def parseInstance (inst username : String) (maxCount : Nat)
    (els : List RawEl) : List ScrapedTweet :=
  (els.take maxCount).filterMap (parseNitterEl inst username)

/-- Outcome of one Nitter mirror: `err` = the request, status check or
rendering raises (caught, next mirror); `ok` = a page with its timeline
elements (possibly none). -/
inductive MirrorOutcome
  | err
  | ok (inst : String) (els : List RawEl)
deriving DecidableEq, Repr

/-- Mirror iteration of `scrape_tweets_from_nitter`: the instance list is
already in its shuffled order; the loop stops at the first mirror whose
parsed items are non-empty, and otherwise (error or nothing parsed)
continues with the next mirror, ending with the empty list. -/
def scrape_tweets_from_nitter (username : String) (maxCount : Nat) :
    List MirrorOutcome → List ScrapedTweet
  | [] => []
  | MirrorOutcome.err :: rest => scrape_tweets_from_nitter username maxCount rest
  | MirrorOutcome.ok inst els :: rest =>
    let tweets := parseInstance inst username maxCount els
    if tweets.isEmpty then scrape_tweets_from_nitter username maxCount rest
    else tweets

/-- One article element of the direct page as `scrape_tweets_directly`
reads it: the first link href containing `/status/` (when any), the
content text resolved by its own selector fallback, the image sources,
and whether handling this element raises (caught, element skipped). -/
structure ArticleEl where
  statusHref : Option String
  content : String
  imgSrcs : List String
  parseRaises : Bool
deriving DecidableEq, Repr

/-- Selector fallback of `scrape_tweets_directly`: the element list of
the first selector in `tweet_selectors` that matches anything. -/
def firstNonemptySelector : List (List ArticleEl) → List ArticleEl
  | [] => []
  | els :: rest => if els.isEmpty then firstNonemptySelector rest else els

/-- Parse of one article inside `scrape_tweets_directly`: id is taken
from the href (`href.split('/status/')[1].split('?')[0]`); articles
without a status link, or whose extracted id is the empty string, are
skipped (`if not tweet_id: continue` — `tweet_id` is `None` when no link
matched and falsy when the extraction gives an empty string); the
timestamp is the current time since the page does not expose one. -/
def parseArticle (username nowIso : String) (a : ArticleEl) : Option ScrapedTweet :=
  if a.parseRaises then none
  else
    match a.statusHref with
    | none => none
    | some href =>
      let tweet_id := (((href.splitOn "/status/").getD 1 "").splitOn "?").headD ""
      if tweet_id.isEmpty then none
      else some {
        id := tweet_id
        content := a.content
        created_at := nowIso
        url := "https://twitter.com/" ++ username ++ "/status/" ++ tweet_id
        media := a.imgSrcs.map (fun src => { mtype := "photo", url := src }) }

/-- Outcome of the direct scrape: `err` = the request or status check
raises (caught, empty result); `ok` = the page, described by the element
lists each candidate selector matches. -/
inductive DirectOutcome
  | err
  | ok (bySelector : List (List ArticleEl))
deriving DecidableEq, Repr

/-- Direct, non-mirrored scrape (`scrape_tweets_directly`): pick the
first selector set that matches, parse at most `maxCount` articles, and
return the empty list when nothing matches or the request fails. -/
def scrape_tweets_directly (username : String) (maxCount : Nat)
    (nowIso : String) : DirectOutcome → List ScrapedTweet
  | DirectOutcome.err => []
  | DirectOutcome.ok bySelector =>
    let els := firstNonemptySelector bySelector
    if els.isEmpty then []
    else (els.take maxCount).filterMap (parseArticle username nowIso)

/-- The fetch-level fallback chain of `main` in `x_scraper.py`: try the
Nitter mirrors, and fall back to the direct scrape when they all yield
nothing. -/
def scrapeFetch (username : String) (maxCount : Nat) (nowIso : String)
    (mirrors : List MirrorOutcome) (direct : DirectOutcome) : List ScrapedTweet :=
  let tweets := scrape_tweets_from_nitter username maxCount mirrors
  if tweets.isEmpty then scrape_tweets_directly username maxCount nowIso direct
  else tweets

/-- Mirror that contributes nothing: an error, or a page none of whose
elements parses to an item. -/
def mirrorEmpty (username : String) (maxCount : Nat) : MirrorOutcome → Bool
  | MirrorOutcome.err => true
  | MirrorOutcome.ok inst els => (parseInstance inst username maxCount els).isEmpty

end XScraper

namespace XScraper

theorem scrape_tweets_from_nitter_all_empty (username : String) (maxCount : Nat) :
    ∀ mirrors : List MirrorOutcome,
      (∀ m ∈ mirrors, mirrorEmpty username maxCount m = true) →
      scrape_tweets_from_nitter username maxCount mirrors = [] := by
  intro mirrors
  induction mirrors with
  | nil => intro _; rfl
  | cons m rest ih =>
    intro h
    cases m with
    | err =>
      show scrape_tweets_from_nitter username maxCount rest = []
      exact ih (fun w hw => h w (List.mem_cons_of_mem _ hw))
    | ok inst els =>
      have hm := h (MirrorOutcome.ok inst els) (List.mem_cons_self _ _)
      unfold scrape_tweets_from_nitter
      simp only [mirrorEmpty] at hm
      rw [if_pos hm]
      exact ih (fun w hw => h w (List.mem_cons_of_mem _ hw))

/-- C6: the scrape fetch (a) stops at the first mirror whose page parses
to at least one item, skipping every earlier mirror that errored or
parsed to nothing; (b) yields the empty list when every mirror
contributes nothing, in which case (c) the fetch falls back to the one
direct scrape of the source site with its fallback selector sets; and
(d) when that also yields nothing the fetch returns the empty sequence —
the embedding is a total function, nothing is raised. -/
theorem scrape_fetch_fallback_chain (username : String) (maxCount : Nat)
    (nowIso : String) :
    (∀ (pre : List MirrorOutcome) (inst : String) (els : List RawEl)
        (rest : List MirrorOutcome),
      (∀ m ∈ pre, mirrorEmpty username maxCount m = true) →
      (parseInstance inst username maxCount els).isEmpty = false →
      scrape_tweets_from_nitter username maxCount
          (pre ++ MirrorOutcome.ok inst els :: rest) =
        parseInstance inst username maxCount els) ∧
    (∀ (mirrors : List MirrorOutcome) (direct : DirectOutcome),
      (∀ m ∈ mirrors, mirrorEmpty username maxCount m = true) →
      scrape_tweets_from_nitter username maxCount mirrors = [] ∧
      scrapeFetch username maxCount nowIso mirrors direct =
        scrape_tweets_directly username maxCount nowIso direct) ∧
    (∀ (mirrors : List MirrorOutcome) (direct : DirectOutcome),
      (∀ m ∈ mirrors, mirrorEmpty username maxCount m = true) →
      scrape_tweets_directly username maxCount nowIso direct = [] →
      scrapeFetch username maxCount nowIso mirrors direct = []) := by
  have hfirst : ∀ (pre : List MirrorOutcome) (inst : String) (els : List RawEl)
      (rest : List MirrorOutcome),
      (∀ m ∈ pre, mirrorEmpty username maxCount m = true) →
      (parseInstance inst username maxCount els).isEmpty = false →
      scrape_tweets_from_nitter username maxCount
          (pre ++ MirrorOutcome.ok inst els :: rest) =
        parseInstance inst username maxCount els := by
    intro pre
    induction pre with
    | nil =>
      intro inst els rest _ hne
      show scrape_tweets_from_nitter username maxCount
        (MirrorOutcome.ok inst els :: rest) = _
      unfold scrape_tweets_from_nitter
      rw [if_neg (by rw [hne]; exact Bool.false_ne_true)]
    | cons m pre ih =>
      intro inst els rest h hne
      have hm := h m (List.mem_cons_self _ _)
      have htail := ih inst els rest (fun w hw => h w (List.mem_cons_of_mem _ hw)) hne
      cases m with
      | err =>
        show scrape_tweets_from_nitter username maxCount
          (pre ++ MirrorOutcome.ok inst els :: rest) = _
        exact htail
      | ok inst2 els2 =>
        simp only [mirrorEmpty] at hm
        show scrape_tweets_from_nitter username maxCount
          (MirrorOutcome.ok inst2 els2 :: (pre ++ MirrorOutcome.ok inst els :: rest)) = _
        unfold scrape_tweets_from_nitter
        rw [if_pos hm]
        exact htail
  have hempty := scrape_tweets_from_nitter_all_empty username maxCount
  refine ⟨hfirst, ?_, ?_⟩
  · intro mirrors direct h
    have h1 := hempty mirrors h
    refine ⟨h1, ?_⟩
    unfold scrapeFetch
    rw [h1]
    rfl
  · intro mirrors direct h hdir
    unfold scrapeFetch
    rw [hempty mirrors h]
    exact hdir

end XScraper

namespace XScraper

/-- Fixture: a parsable, non-retweet timeline element. -/
def exRawEl : RawEl :=
  { permalink := some "/user/status/123"
    isRetweet := false
    content := "hi"
    timeTitle := some "Apr 26, 2025, 15:30:45"
    mediaSrcs := []
    parseRaises := false }

/-- Fixture: an erroring mirror followed by a mirror whose page parses to
nothing. -/
def exMirrors : List MirrorOutcome :=
  [MirrorOutcome.err, MirrorOutcome.ok "https://nitter.net" []]

/-- Witness for C6: two unproductive mirrors, then a productive one; and
the all-unproductive case with a failing and an empty direct scrape. -/
theorem scrape_fetch_fallback_chain_witness :
    ((∀ m ∈ exMirrors, mirrorEmpty "artist" 5 m = true) ∧
     (parseInstance "https://nitter.cz" "artist" 5 [exRawEl]).isEmpty = false ∧
     scrape_tweets_directly "artist" 5 "now" DirectOutcome.err = []) ∧
    (scrape_tweets_from_nitter "artist" 5
        (exMirrors ++ MirrorOutcome.ok "https://nitter.cz" [exRawEl] :: []) =
      parseInstance "https://nitter.cz" "artist" 5 [exRawEl]) ∧
    (scrape_tweets_from_nitter "artist" 5 exMirrors = [] ∧
     scrapeFetch "artist" 5 "now" exMirrors (DirectOutcome.ok [[], []]) =
       scrape_tweets_directly "artist" 5 "now" (DirectOutcome.ok [[], []])) ∧
    (scrapeFetch "artist" 5 "now" exMirrors DirectOutcome.err = []) :=
  ⟨⟨by decide, by decide, rfl⟩,
   (scrape_fetch_fallback_chain "artist" 5 "now").1 exMirrors "https://nitter.cz" [exRawEl]
     [] (by decide) (by decide),
   (scrape_fetch_fallback_chain "artist" 5 "now").2.1 exMirrors (DirectOutcome.ok [[], []])
     (by decide),
   (scrape_fetch_fallback_chain "artist" 5 "now").2.2 exMirrors DirectOutcome.err
     (by decide) rfl⟩

end XScraper

namespace RunXService

/-- Configuration of the controller in `run_x_service.py`:
`autoSwitch` = `ENABLE_AUTO_SWITCH`, `noApi` = `args.no_api`,
`maxFailures` = `MAX_API_FAILURES`, `recoveryMinutes` =
`API_RECOVERY_MINUTES` (both read with `getint`, hence `Int`). -/
structure SvcConfig where
  autoSwitch : Bool
  noApi : Bool
  maxFailures : Int
  recoveryMinutes : Int
deriving DecidableEq, Repr

/-- Mutable module state of `run_x_service.py`: `useApi` =
`USE_API_MODE`, `failCount` = `API_FAILURE_COUNT`, `lastFailure` =
`LAST_API_FAILURE` (a timestamp in seconds, `none` before any failure). -/
structure SvcState where
  useApi : Bool
  failCount : Nat
  lastFailure : Option Int
deriving DecidableEq, Repr

/-- Fetch attempts made by `run_scraper`: a `tweet_to_weibo.py`
subprocess (API path) or an `x_scraper.py` subprocess (scrape path). -/
inductive SvcEvent
  | apiAttempt
  | scrapeAttempt
deriving DecidableEq, Repr

/-- Result of one `run_scraper` call: the returned boolean (`none` only
when the recursion fuel runs out, which a large enough fuel avoids), the
final module state, the fetch attempts made, and the next fresh index
into the time/outcome oracles. -/
structure SvcResult where
  ok : Option Bool
  state : SvcState
  events : List SvcEvent
  nextIdx : Nat
deriving DecidableEq, Repr

/-- The controller `run_scraper` of `run_x_service.py`.  Oracles are
indexed by invocation: `now k` is the `datetime.now()` of the k-th entry
into the function, `apiFails k` is whether the API-path subprocess of
that entry fails (non-zero exit, the rate-limit marker
`X API请求次数超过限制` in its output, or an exception — all handled
identically), `scrapeFails k` likewise for the scrape path.  The
recursive `return run_scraper()` taken after flipping to scrape mode is
the `fuel` recursion. -/
def run_scraper (cfg : SvcConfig) (now : Nat → Int) (apiFails : Nat → Bool)
    (scrapeFails : Nat → Bool) : Nat → Nat → SvcState → SvcResult
  | 0, k, st => ⟨none, st, [], k⟩
  | fuel+1, k, st =>
    let st1 := if cfg.autoSwitch = false ∧ cfg.noApi = true then
        { st with useApi := false } else st
    let t := now k
    let st2 :=
      if st1.useApi = false ∧ cfg.autoSwitch = true then
        match st1.lastFailure with
        | some lf =>
          if t - lf > cfg.recoveryMinutes * 60 then
            { st1 with useApi := true, failCount := 0 }
          else st1
        | none => st1
      else st1
    if st2.useApi then
      if apiFails k then
        let st3 : SvcState :=
          { useApi := st2.useApi, failCount := st2.failCount + 1, lastFailure := some t }
        if (st3.failCount : Int) ≥ cfg.maxFailures then
          let st4 := { st3 with useApi := false }
          let r := run_scraper cfg now apiFails scrapeFails fuel (k+1) st4
          ⟨r.ok, r.state, SvcEvent.apiAttempt :: r.events, r.nextIdx⟩
        else ⟨some false, st3, [SvcEvent.apiAttempt], k+1⟩
      else ⟨some true, { st2 with failCount := 0 }, [SvcEvent.apiAttempt], k+1⟩
    else ⟨some (!scrapeFails k), st2, [SvcEvent.scrapeAttempt], k+1⟩

/-- The polling loop of `main` in `run_x_service.py`, restricted to its
`run_scraper` calls: `n` cycles, threading the state and the oracle
index. -/
def runCycles (cfg : SvcConfig) (now : Nat → Int) (apiFails : Nat → Bool)
    (scrapeFails : Nat → Bool) (fuel : Nat) :
    Nat → Nat → SvcState → SvcState × List SvcEvent
  | 0, _, st => (st, [])
  | n+1, k, st =>
    let r := run_scraper cfg now apiFails scrapeFails fuel k st
    let rest := runCycles cfg now apiFails scrapeFails fuel n r.nextIdx r.state
    (rest.1, r.events ++ rest.2)

end RunXService

namespace RunXService

/-- C3: in API mode with the consecutive-failure counter at `N-1`
(threshold `N = n+1`), one more API failure — non-zero exit, the
rate-limit marker in the output, or an exception — increments the counter
to `N`, records the failure time, flips the mode to scrape, and the same
`run_scraper` call immediately retries through the scrape path (the
recursive call), without waiting for the next interval.  The hypothesis
on `now` says the recursive call happens within the recovery window, as
it does immediately after the failure whenever the window is
non-negative. -/
theorem api_failure_at_threshold_flips_and_retries
    (cfg : SvcConfig) (now : Nat → Int) (apiFails scrapeFails : Nat → Bool)
    (n : Nat) (lf : Option Int) (f k : Nat)
    (hnoApi : cfg.noApi = false)
    (hmax : cfg.maxFailures = (n : Int) + 1)
    (hapi : apiFails k = true)
    (hrec : ¬ (now (k+1) - now k > cfg.recoveryMinutes * 60)) :
    run_scraper cfg now apiFails scrapeFails (f+2) k ⟨true, n, lf⟩ =
      ⟨some (!scrapeFails (k+1)), ⟨false, n+1, some (now k)⟩,
        [SvcEvent.apiAttempt, SvcEvent.scrapeAttempt], k+2⟩ := by
  have hinner : run_scraper cfg now apiFails scrapeFails (f+1) (k+1)
      ⟨false, n+1, some (now k)⟩ =
      ⟨some (!scrapeFails (k+1)), ⟨false, n+1, some (now k)⟩,
        [SvcEvent.scrapeAttempt], k+2⟩ := by
    unfold run_scraper
    by_cases hs : cfg.autoSwitch = true
    · simp [hnoApi, hs, hrec]
    · simp [hnoApi, hs]
  unfold run_scraper
  simp [hnoApi, hapi, hinner, le_of_eq hmax]

/-- Scrape attempt of a forced-scrape invocation: with auto-switch
disabled and `--no-api` given, every `run_scraper` call uses the scrape
path only. -/
theorem run_scraper_forced_scrape (cfg : SvcConfig) (now : Nat → Int)
    (apiFails scrapeFails : Nat → Bool)
    (hswitch : cfg.autoSwitch = false) (hno : cfg.noApi = true) :
    ∀ (fuel k : Nat) (st : SvcState),
      SvcEvent.apiAttempt ∉ (run_scraper cfg now apiFails scrapeFails fuel k st).events := by
  intro fuel k st
  cases fuel with
  | zero => simp [run_scraper]
  | succ f =>
    unfold run_scraper
    simp [hswitch, hno]

/-- C4: (a) while in scrape mode with a recorded last failure, with
auto-recovery enabled and `now - last_failure_at` strictly above the
recovery window, `run_scraper` behaves exactly as if entered in API mode
with the failure counter reset to 0 — the mode returns to API before the
next fetch, which is an API attempt; (b) with auto-recovery disabled and
scrape forced by the caller, no cycle of the run ever attempts the API
path again. -/
theorem scrape_mode_recovery_and_forced_scrape
    (cfg : SvcConfig) (now : Nat → Int) (apiFails scrapeFails : Nat → Bool) :
    (∀ (st : SvcState) (lf : Int) (f k : Nat),
      st.useApi = false → st.lastFailure = some lf → cfg.autoSwitch = true →
      now k - lf > cfg.recoveryMinutes * 60 →
      run_scraper cfg now apiFails scrapeFails (f+1) k st =
        run_scraper cfg now apiFails scrapeFails (f+1) k ⟨true, 0, some lf⟩ ∧
      (run_scraper cfg now apiFails scrapeFails (f+1) k st).events.head? =
        some SvcEvent.apiAttempt) ∧
    (cfg.autoSwitch = false → cfg.noApi = true →
      ∀ (n fuel k : Nat) (st : SvcState),
        SvcEvent.apiAttempt ∉
          (runCycles cfg now apiFails scrapeFails fuel n k st).2) := by
  constructor
  · intro st lf f k hua hlf hs hwin
    obtain ⟨ua, fc, lfo⟩ := st
    simp only at hua hlf
    subst hua hlf
    have hst2 : run_scraper cfg now apiFails scrapeFails (f+1) k
        ⟨false, fc, some lf⟩ =
        run_scraper cfg now apiFails scrapeFails (f+1) k ⟨true, 0, some lf⟩ := by
      conv_lhs => unfold run_scraper
      conv_rhs => unfold run_scraper
      simp [hs, hwin]
    refine ⟨hst2, ?_⟩
    rw [hst2]
    unfold run_scraper
    by_cases hapi : apiFails k = true
    · simp only [hs, hapi]
      simp
      split
      · simp
      · simp
    · simp only [Bool.not_eq_true] at hapi
      simp [hs, hapi]
  · intro hswitch hno n
    induction n with
    | zero => intro fuel k st; simp [runCycles]
    | succ m ih =>
      intro fuel k st
      have hstep := run_scraper_forced_scrape cfg now apiFails scrapeFails hswitch hno fuel k st
      unfold runCycles
      simp only [List.mem_append]
      rintro (h | h)
      · exact hstep h
      · exact ih fuel _ _ h

end RunXService

namespace RunXService

/-- Fixture: auto-switch enabled, API mode allowed, threshold 3, recovery
window 60 minutes. -/
def exCfg : SvcConfig := ⟨true, false, 3, 60⟩

/-- Fixture: forced scrape configuration (auto-switch disabled,
`--no-api`). -/
def exCfgForced : SvcConfig := ⟨false, true, 3, 60⟩

/-- Witness for C3: counter at 2 with threshold 3; an API failure at time
0 flips to scrape and retries the same cycle through the scrape path. -/
theorem api_failure_at_threshold_flips_and_retries_witness :
    (exCfg.noApi = false ∧ exCfg.maxFailures = ((2 : Nat) : Int) + 1 ∧
     (fun _ : Nat => true) 0 = true ∧
     ¬ ((fun j : Nat => (j : Int)) 1 - (fun j : Nat => (j : Int)) 0 >
        exCfg.recoveryMinutes * 60)) ∧
    run_scraper exCfg (fun j => (j : Int)) (fun _ => true) (fun _ => false)
        2 0 ⟨true, 2, none⟩ =
      ⟨some true, ⟨false, 3, some 0⟩,
        [SvcEvent.apiAttempt, SvcEvent.scrapeAttempt], 2⟩ :=
  ⟨⟨rfl, by decide, rfl, by decide⟩,
   api_failure_at_threshold_flips_and_retries exCfg (fun j => (j : Int))
     (fun _ => true) (fun _ => false) 2 none 0 0 rfl (by decide) rfl (by decide)⟩

/-- Witness for C4: (a) in scrape mode since time 0, a cycle at time
10000 (past the 3600-second window) behaves as a fresh API-mode cycle
with counter 0 and attempts the API first; (b) with the forced-scrape
configuration, two cycles never attempt the API path. -/
theorem scrape_mode_recovery_and_forced_scrape_witness :
    ((⟨false, 3, some 0⟩ : SvcState).useApi = false ∧
     (⟨false, 3, some 0⟩ : SvcState).lastFailure = some 0 ∧
     exCfg.autoSwitch = true ∧
     (fun j : Nat => (j : Int) + 10000) 0 - 0 > exCfg.recoveryMinutes * 60 ∧
     exCfgForced.autoSwitch = false ∧ exCfgForced.noApi = true) ∧
    (run_scraper exCfg (fun j => (j : Int) + 10000) (fun _ => false) (fun _ => false)
        1 0 ⟨false, 3, some 0⟩ =
      run_scraper exCfg (fun j => (j : Int) + 10000) (fun _ => false) (fun _ => false)
        1 0 ⟨true, 0, some 0⟩ ∧
     (run_scraper exCfg (fun j => (j : Int) + 10000) (fun _ => false) (fun _ => false)
        1 0 ⟨false, 3, some 0⟩).events.head? = some SvcEvent.apiAttempt) ∧
    (SvcEvent.apiAttempt ∉
      (runCycles exCfgForced (fun j => (j : Int)) (fun _ => false) (fun _ => false)
        1 2 0 ⟨true, 0, none⟩).2) :=
  ⟨⟨rfl, rfl, rfl, by decide, rfl, rfl⟩,
   (scrape_mode_recovery_and_forced_scrape exCfg (fun j => (j : Int) + 10000)
     (fun _ => false) (fun _ => false)).1 ⟨false, 3, some 0⟩ 0 0 0 rfl rfl rfl (by decide),
   (scrape_mode_recovery_and_forced_scrape exCfgForced (fun j => (j : Int))
     (fun _ => false) (fun _ => false)).2 rfl rfl 2 1 0 ⟨true, 0, none⟩⟩

end RunXService
